import Mathlib

/-!
Verification of the ISO date/time core (`src/iso.rs`).

The development shallowly embeds the Rust source into Lean:
Rust machine integers (`i32`, `u8`, `u16`, `u64`, `i128`) are modelled as `Int`
(claims quantify only over ranges far below any overflow boundary, and
witnesses stay inside them), Rust `TemporalResult` is `Except TemporalError`,
and the `f64` arithmetic of `IsoTime::balance` / the instant-range checks is
modelled as exact integer arithmetic (the quantities involved stay within the
range where the source's `f64` computations are exact to far below the margins
any compared bound leaves).

Rust operator correspondence used throughout: on `Int`, Lean's `/` and `%`
are Euclidean division and remainder, which agree with Rust's `div_euclid` /
`rem_euclid`; Rust's truncating `/` on `i32` is modelled by `trunc_div` below.

Helpers from the crate that are not part of `src/iso.rs` (the `utils` module,
the `options` and `rounding` modules, the duration record and the instant
constants) are modelled from the spec, each marked `Modelled from the spec:`
in its doc comment.
-/

/-- Modelled from the spec: the overflow policy, "an explicit two-variant
choice value" — Constrain clamps, Reject fails (`options::ArithmeticOverflow`
is not under `src/`). -/
inductive ArithmeticOverflow
  | constrain
  | reject
deriving DecidableEq, Repr

/-- Modelled from the spec: the unit of a rounding or difference operation
(`options::TemporalUnit` is not under `src/`). -/
inductive TemporalUnit
  | year
  | month
  | week
  | day
  | hour
  | minute
  | second
  | millisecond
  | microsecond
  | nanosecond
deriving DecidableEq, Repr

/-- Modelled from the spec: the caller-selected rounding mode of the rounding
capability (`options::TemporalRoundingMode` is not under `src/`). -/
inductive TemporalRoundingMode
  | ceil
  | floor
  | trunc
  | expand
  | halfExpand
  | halfEven
deriving DecidableEq, Repr

/-- Modelled from the spec: the error type "carries a discriminant (at minimum
RangeError) and a human-readable message" (`error::TemporalError` is not under
`src/`). -/
inductive TemporalError
  | range (msg : String)
deriving DecidableEq, Repr

/-- Modelled from the spec: nanoseconds per standard 24-hour day
(`crate::NS_PER_DAY` is not under `src/`). -/
def NS_PER_DAY : Int := 86400000000000

/-- Modelled from the spec: the global maximum instant, in epoch nanoseconds.
The spec gives the instant bound only implicitly: the date limit is an
epoch-day distance of 100,000,001 days and the date-time window is the instant
range plus one day of slack on each side, so the instant range itself is
±100,000,000 days = ±8.64×10^21 ns (`crate::NS_MAX_INSTANT` is not under
`src/`). -/
def NS_MAX_INSTANT : Int := 8640000000000000000000

/-- Modelled from the spec: the global minimum instant, in epoch nanoseconds.
See `NS_MAX_INSTANT`. -/
def NS_MIN_INSTANT : Int := -8640000000000000000000

/-- Modelled from the spec: the ISO (proleptic Gregorian) leap-year rule used
by the epoch-day utilities (`utils` is not under `src/`). -/
def iso_is_leap_year (year : Int) : Bool :=
  decide ((year % 4 = 0 ∧ ¬ year % 100 = 0) ∨ year % 400 = 0)

/-- Modelled from the spec: `days_in_month(year, month)` for a 1-based month,
defining the valid day range of `IsoDate` (`utils::iso_days_in_month` is not
under `src/`). -/
def iso_days_in_month (year month : Int) : Int :=
  if month = 2 then (if iso_is_leap_year year then 29 else 28)
  else if month = 4 ∨ month = 6 ∨ month = 9 ∨ month = 11 then 30
  else 31

/-- Modelled from the spec: the epoch-day number of January 1 of `year` — the
"epoch time at which the year begins", at day granularity. This is the
standard ECMAScript `DayFromYear` staircase (`utils::epoch_time_for_year` is
not under `src/`; it returns this value scaled to milliseconds). -/
def day_from_year (year : Int) : Int :=
  365 * (year - 1970) + (year - 1969) / 4 - (year - 1901) / 100 + (year - 1601) / 400

/-- Modelled from the spec: days in `year` strictly before 0-based `month` —
the month offset of the "epoch time at which (year, month, 1) begins", at day
granularity (`utils::epoch_time_for_month_given_year` is not under `src/`).
Arguments outside 0..=11 are clamped to the year's edges; the source only ever
passes a `rem_euclid 12` result. -/
def day_in_year_before_month (year month : Int) : Int :=
  if month ≤ 0 then 0
  else if month = 1 then 31
  else if month = 2 then 59 + (if iso_is_leap_year year then 1 else 0)
  else if month = 3 then 90 + (if iso_is_leap_year year then 1 else 0)
  else if month = 4 then 120 + (if iso_is_leap_year year then 1 else 0)
  else if month = 5 then 151 + (if iso_is_leap_year year then 1 else 0)
  else if month = 6 then 181 + (if iso_is_leap_year year then 1 else 0)
  else if month = 7 then 212 + (if iso_is_leap_year year then 1 else 0)
  else if month = 8 then 243 + (if iso_is_leap_year year then 1 else 0)
  else if month = 9 then 273 + (if iso_is_leap_year year then 1 else 0)
  else if month = 10 then 304 + (if iso_is_leap_year year then 1 else 0)
  else if month = 11 then 334 + (if iso_is_leap_year year then 1 else 0)
  else 365 + (if iso_is_leap_year year then 1 else 0)

/-- Rust's truncating (toward-zero) integer division `a / b` on `i32`, for a
positive divisor `b`, expressed through Euclidean division. -/
def trunc_div (a b : Int) : Int := if 0 ≤ a then a / b else -((-a) / b)

/-- Embeds `iso_date_to_epoch_days` (src/iso.rs:784). The year resolution is
the source's Rust `month / 12`, i.e. truncating division (`trunc_div`), while
the month resolution is `month.rem_euclid(12)`. The `utils::epoch_time_*`
composition (year start plus month offset, read back as a day number) is
modelled at day granularity; the source's `.copysign(year_t)` is a no-op,
since `month_t` is non-negative and smaller than the magnitude of every
negative `year_t`, so `year_t + month_t` always already has the sign of
`year_t`. -/
def iso_date_to_epoch_days (year month day : Int) : Int :=
  day_from_year (year + trunc_div month 12)
    + day_in_year_before_month (year + trunc_div month 12) (month % 12)
    + day - 1

/-- Follows the spec's words for `date_to_epoch_days` (§4.1), for comparison
with the source's `iso_date_to_epoch_days`: "Resolves year += floor(month/12),
month = month mod 12 (Euclidean), locates the epoch time at which that
resolved (year, month, day=1) begins, and returns day-number-of-that-time +
day − 1." -/
def date_to_epoch_days_spec (year month day : Int) : Int :=
  day_from_year (year + month / 12)
    + day_in_year_before_month (year + month / 12) (month % 12)
    + day - 1

/-- Modelled from the spec: the year component of `epoch_days_to_date`, the
inverse direction of the epoch-day bijection (`utils::epoch_time_to_epoch_year`
is not under `src/`). Implemented as an executable inverse of the
`day_from_year` staircase: the initial guess `400·days / 146097` is proven
below to land within one year of the answer. -/
def epoch_year_from_days (days : Int) : Int :=
  if day_from_year (1971 + 400 * days / 146097) ≤ days then 1971 + 400 * days / 146097
  else if day_from_year (1970 + 400 * days / 146097) ≤ days then
    1970 + 400 * days / 146097
  else 1969 + 400 * days / 146097

/-- Modelled from the spec: the 0-based month containing day `day_in_year` of
`year` (`utils::epoch_time_to_month_in_year` is not under `src/`). -/
def month_from_day_in_year (year day_in_year : Int) : Int :=
  if day_in_year < day_in_year_before_month year 1 then 0
  else if day_in_year < day_in_year_before_month year 2 then 1
  else if day_in_year < day_in_year_before_month year 3 then 2
  else if day_in_year < day_in_year_before_month year 4 then 3
  else if day_in_year < day_in_year_before_month year 5 then 4
  else if day_in_year < day_in_year_before_month year 6 then 5
  else if day_in_year < day_in_year_before_month year 7 then 6
  else if day_in_year < day_in_year_before_month year 8 then 7
  else if day_in_year < day_in_year_before_month year 9 then 8
  else if day_in_year < day_in_year_before_month year 10 then 9
  else if day_in_year < day_in_year_before_month year 11 then 10
  else 11

/-- Embeds the `IsoDate` record (src/iso.rs:185): `year: i32`, `month: u8`,
`day: u8`, all modelled as `Int`. -/
structure IsoDate where
  year : Int
  month : Int
  day : Int
deriving DecidableEq, Repr

/-- Embeds the `IsoTime` record (src/iso.rs:396): `hour/minute/second: u8`,
`millisecond/microsecond/nanosecond: u16`, all modelled as `Int`. -/
structure IsoTime where
  hour : Int
  minute : Int
  second : Int
  millisecond : Int
  microsecond : Int
  nanosecond : Int
deriving DecidableEq, Repr

/-- Embeds `IsoDate::to_epoch_days` (src/iso.rs:245). -/
def IsoDate.to_epoch_days (d : IsoDate) : Int :=
  iso_date_to_epoch_days d.year (d.month - 1) d.day

/-- Embeds `is_valid_date` (src/iso.rs:801). -/
def is_valid_date (year month day : Int) : Bool :=
  decide (1 ≤ month ∧ month ≤ 12 ∧ 1 ≤ day ∧ day ≤ iso_days_in_month year month)

/-- Embeds the derived `Ord` of `IsoDate` (src/iso.rs:184): lexicographic on
(year, month, day). -/
def IsoDate.cmp (a b : IsoDate) : Ordering :=
  if a.year < b.year then .lt
  else if b.year < a.year then .gt
  else if a.month < b.month then .lt
  else if b.month < a.month then .gt
  else if a.day < b.day then .lt
  else if b.day < a.day then .gt
  else .eq

/-- Rust's `Ordering as i8`: Less = −1, Equal = 0, Greater = 1. -/
def ord_to_int : Ordering → Int
  | .lt => -1
  | .eq => 0
  | .gt => 1

/-- Embeds `iso_date_surpasses` (src/iso.rs:812). -/
def iso_date_surpasses (this other : IsoDate) (sign : Int) : Bool :=
  decide (ord_to_int (IsoDate.cmp this other) * sign = 1)

/-- Embeds `balance_iso_year_month` (src/iso.rs:817): `div_euclid` /
`rem_euclid` are Lean's `/` / `%` on `Int`. -/
def balance_iso_year_month (year month : Int) : Int × Int :=
  (year + (month - 1) / 12, (month - 1) % 12 + 1)

/-- Modelled from the spec: `epoch_days_to_date(days)`, the "inverse, used by
balance" of the epoch-day bijection. The source's `IsoDate::balance` obtains
it by scaling the day count to epoch milliseconds and applying
`utils::epoch_time_to_epoch_year` / `_month_in_year` / `_date` (none under
`src/`); modelled here at day granularity. -/
def epoch_days_to_date (days : Int) : IsoDate :=
  ⟨epoch_year_from_days days,
    month_from_day_in_year (epoch_year_from_days days) (days - day_from_year (epoch_year_from_days days)) + 1,
    days - day_from_year (epoch_year_from_days days)
      - day_in_year_before_month (epoch_year_from_days days)
          (month_from_day_in_year (epoch_year_from_days days) (days - day_from_year (epoch_year_from_days days)))
      + 1⟩

/-- Embeds `IsoDate::balance` (src/iso.rs:232): linearize (with the source's
`month - 1`) then read the canonical date back. -/
def IsoDate.balance (year month day : Int) : IsoDate :=
  epoch_days_to_date (iso_date_to_epoch_days year (month - 1) day)

/-- Embeds `IsoTime::noon` (src/iso.rs:462). -/
def IsoTime.noon : IsoTime := ⟨12, 0, 0, 0, 0, 0⟩

/-- Embeds `IsoTime::to_epoch_ms` (src/iso.rs:738). -/
def IsoTime.to_epoch_ms (t : IsoTime) : Int :=
  t.hour * 3600000 + t.minute * 60000 + t.second * 1000 + t.millisecond

/-- Modelled from the spec: epoch-day linearization to epoch milliseconds
(`utils::epoch_days_to_epoch_ms` is not under `src/`). -/
def epoch_days_to_epoch_ms (days ms : Int) : Int :=
  days * 86400000 + ms

/-- Embeds `utc_epoch_nanos` (src/iso.rs:768), with the source's `f64`
`mul_add` chain as exact integer arithmetic. -/
def utc_epoch_nanos (date : IsoDate) (time : IsoTime) (offset : Int) : Int :=
  epoch_days_to_epoch_ms date.to_epoch_days time.to_epoch_ms * 1000000
    + (time.microsecond * 1000 + time.nanosecond) - offset

/-- Embeds `iso_dt_within_valid_limits` (src/iso.rs:750). -/
def iso_dt_within_valid_limits (date : IsoDate) (time : IsoTime) : Bool :=
  if 100000001 < (iso_date_to_epoch_days date.year (date.month - 1) date.day).natAbs then
    false
  else
    decide (NS_MIN_INSTANT - NS_PER_DAY < utc_epoch_nanos date time 0) &&
      decide (utc_epoch_nanos date time 0 < NS_MAX_INSTANT + NS_PER_DAY)

/-- Embeds `IsoDate::new` (src/iso.rs:197): regulate by the overflow policy,
then re-check the instant-range limit at noon (the source performs the limit
check once after the `match`; it is written once per arm here, which is the
same computation). Rust's `clamp(lo, hi)` is `max lo (min x hi)`. -/
def IsoDate.new (year month day : Int) (overflow : ArithmeticOverflow) :
    Except TemporalError IsoDate :=
  match overflow with
  | .constrain =>
    if iso_dt_within_valid_limits
        ⟨year, max 1 (min month 12),
          max 1 (min day (iso_days_in_month year (max 1 (min month 12))))⟩
        IsoTime.noon then
      .ok ⟨year, max 1 (min month 12),
        max 1 (min day (iso_days_in_month year (max 1 (min month 12))))⟩
    else .error (.range "Date is not within ISO date time limits.")
  | .reject =>
    if is_valid_date year month day then
      if iso_dt_within_valid_limits ⟨year, month, day⟩ IsoTime.noon then
        .ok ⟨year, month, day⟩
      else .error (.range "Date is not within ISO date time limits.")
    else .error (.range "not a valid ISO date.")

/-- Embeds `div_mod` (src/iso.rs:846): `(div_euclid, rem_euclid)`. -/
def div_mod (dividend divisor : Int) : Int × Int :=
  (dividend / divisor, dividend % divisor)

/-- Embeds `IsoTime::balance` (src/iso.rs:497): carry nanoseconds up to days
with `div_mod` at each stage, returning (whole days, normalized time). -/
def IsoTime.balance (hour minute second millisecond microsecond nanosecond : Int) :
    Int × IsoTime :=
  let p1 := div_mod nanosecond 1000
  let p2 := div_mod (microsecond + p1.1) 1000
  let p3 := div_mod (millisecond + p2.1) 1000
  let p4 := div_mod (second + p3.1) 60
  let p5 := div_mod (minute + p4.1) 60
  let p6 := div_mod (hour + p5.1) 24
  (p6.1, ⟨p6.2, p5.2, p4.2, p3.2, p2.2, p1.2⟩)

/-- Total nanoseconds represented by six raw time components; used to state
that `IsoTime::balance` carries without losing or creating time. -/
def raw_total_nanos (hour minute second millisecond microsecond nanosecond : Int) : Int :=
  ((((hour * 60 + minute) * 60 + second) * 1000 + millisecond) * 1000 + microsecond) * 1000
    + nanosecond

/-- Modelled from the spec: the fixed nanosecond width of each time unit
(`options::TemporalUnit::as_nanoseconds` is not under `src/`). -/
def TemporalUnit.as_nanoseconds : TemporalUnit → Option Int
  | .day => some NS_PER_DAY
  | .hour => some 3600000000000
  | .minute => some 60000000000
  | .second => some 1000000000
  | .millisecond => some 1000000
  | .microsecond => some 1000
  | .nanosecond => some 1
  | _ => none

/-- Embeds the unit-width selection of `IsoTime::round` (src/iso.rs:624-629).
For `Day` the caller-supplied `day_length_ns` (defaulting to `NS_PER_DAY`) is
wrapped with `NonZeroU64::new_unchecked`, which performs no validation, so a
zero width passes through unchanged; for other units `as_nanoseconds` is
unwrapped (erroring only on `None`) and likewise wrapped unchecked. -/
def unit_width (unit : TemporalUnit) (day_length_ns : Option Int) :
    Except TemporalError Int :=
  if unit = .day then .ok (day_length_ns.getD NS_PER_DAY)
  else
    match unit.as_nanoseconds with
    | some n => .ok n
    | none => .error (.range "temporal field not set")

/-- Embeds the `checked_mul` of the rounding step (src/iso.rs:631-633): fails
only when the `u64` product overflows. -/
def checked_mul_u64 (a b : Int) : Except TemporalError Int :=
  if a * b < 18446744073709551616 then .ok (a * b)
  else .error (.range "temporal field not set")

/-- Modelled from the spec: the rounding capability, "round integer quantity Q
to nearest multiple of step S under mode M" (`rounding::IncrementRounder` is
not under `src/`). `increment` is assumed positive. -/
def round_number_to_increment (q increment : Int) (mode : TemporalRoundingMode) : Int :=
  match mode with
  | .floor => q - q % increment
  | .ceil => if q % increment = 0 then q else q - q % increment + increment
  | .trunc =>
    if 0 ≤ q then q - q % increment
    else if q % increment = 0 then q else q - q % increment + increment
  | .expand =>
    if 0 ≤ q then (if q % increment = 0 then q else q - q % increment + increment)
    else q - q % increment
  | .halfExpand =>
    if 2 * (q % increment) < increment then q - q % increment
    else if increment < 2 * (q % increment) then q - q % increment + increment
    else if 0 ≤ q then q - q % increment + increment else q - q % increment
  | .halfEven =>
    if 2 * (q % increment) < increment then q - q % increment
    else if increment < 2 * (q % increment) then q - q % increment + increment
    else if (q / increment) % 2 = 0 then q - q % increment
    else q - q % increment + increment

/-- Embeds `IsoTime::round` (src/iso.rs:562): compute the unit-scale quantity
in nanoseconds exactly as the source does (note the source's `Minute` branch
adds `minute * 60`, not `minute * 60 * 1_000_000_000`), build the step, round,
divide back by the unit width, and re-expand through `IsoTime::balance`. The
final division assumes the unit width is non-zero (the source holds it in a
`NonZeroU64` built with `new_unchecked`; see `unit_width`). -/
def IsoTime.round (t : IsoTime) (increment : Int) (unit : TemporalUnit)
    (mode : TemporalRoundingMode) (day_length_ns : Option Int) :
    Except TemporalError (Int × IsoTime) := do
  let quantity : Int ←
    match unit with
    | .hour | .day =>
      pure (t.nanosecond + t.microsecond * 1000 + t.millisecond * 1000000
        + t.second * 1000000000 + t.minute * 60 * 1000000000
        + t.hour * 60 * 60 * 1000000000)
    | .minute =>
      pure (t.nanosecond + t.microsecond * 1000 + t.millisecond * 1000000
        + t.second * 1000000000 + t.minute * 60)
    | .second =>
      pure (t.nanosecond + t.microsecond * 1000 + t.millisecond * 1000000
        + t.second * 1000000000)
    | .millisecond =>
      pure (t.nanosecond + t.microsecond * 1000 + t.millisecond * 1000000)
    | .microsecond =>
      pure (t.nanosecond + 1000 * t.microsecond)
    | .nanosecond =>
      pure t.nanosecond
    | _ => .error (.range "Invalid temporal unit provided to Time.round.")
  let ns_per_unit ← unit_width unit day_length_ns
  let step ← checked_mul_u64 ns_per_unit increment
  let result := round_number_to_increment quantity step mode / ns_per_unit
  match unit with
  | .day => pure (result, (⟨0, 0, 0, 0, 0, 0⟩ : IsoTime))
  | .hour => pure (IsoTime.balance result 0 0 0 0 0)
  | .minute => pure (IsoTime.balance t.hour result 0 0 0 0)
  | .second => pure (IsoTime.balance t.hour t.minute result 0 0 0)
  | .millisecond => pure (IsoTime.balance t.hour t.minute t.second result 0 0)
  | .microsecond => pure (IsoTime.balance t.hour t.minute t.second t.millisecond result 0)
  | .nanosecond =>
    pure (IsoTime.balance t.hour t.minute t.second t.millisecond t.microsecond result)
  | _ => .error (.range "Invalid temporal unit provided to Time.round.")

/-- Modelled from the spec: the signed date-duration record (years, months,
weeks, days), integral in every use the source makes of it
(`duration::DateDuration` is not under `src/`; its `f64` components are
modelled as `Int` and its construction validation as always succeeding, which
is the only behaviour `diff_iso_date`'s integral outputs exercise). -/
structure DateDuration where
  years : Int
  months : Int
  weeks : Int
  days : Int
deriving DecidableEq, Repr

/-- Component-wise negation of a `DateDuration`. -/
def DateDuration.negated (d : DateDuration) : DateDuration :=
  ⟨-d.years, -d.months, -d.weeks, -d.days⟩

/-- Fuel bound for the greedy year/month loops of `diff_iso_date`. The Rust
loops are unbounded `while` loops; every concrete evaluation in this file
exits the loop well within this bound, so the fuel never alters a result
used anywhere below. -/
def diff_fuel : Nat := 1000000

/-- Embeds the year loop of `diff_iso_date` (src/iso.rs:313-323): while the
candidate year offset does not surpass `other`, commit it and step by
`sign`. -/
def year_loop (fuel : Nat) (self other : IsoDate) (sign candidate years : Int) : Int :=
  match fuel with
  | 0 => years
  | fuel + 1 =>
    if iso_date_surpasses ⟨self.year + candidate, self.month, self.day⟩ other sign then years
    else year_loop fuel self other sign (candidate + sign) candidate

/-- Embeds the month loop of `diff_iso_date` (src/iso.rs:331-349): while the
balanced intermediate (year, month) with `self`'s day does not surpass
`other`, commit the candidate month offset and step by `sign`. -/
def month_loop (fuel : Nat) (other : IsoDate) (day sign candidate months : Int)
    (inter : Int × Int) : Int :=
  match fuel with
  | 0 => months
  | fuel + 1 =>
    if iso_date_surpasses ⟨inter.1, inter.2, day⟩ other sign then months
    else
      month_loop fuel other day sign (candidate + sign) candidate
        (balance_iso_year_month inter.1 (inter.2 + sign))

/-- Embeds `IsoDate::diff_iso_date` (src/iso.rs:289): sign, greedy year and
month offsets, Constrain-regulated intermediate (which re-runs the noon
instant-range check of `IsoDate::new` and can fail), linear day remainder,
and the Week split `(days / 7, days.rem_euclid(7))` — a truncating quotient
paired with a Euclidean remainder. -/
def diff_iso_date (self other : IsoDate) (largest_unit : TemporalUnit) :
    Except TemporalError DateDuration :=
  if ord_to_int (IsoDate.cmp self other) = 0 then .ok ⟨0, 0, 0, 0⟩
  else
    let sign := -ord_to_int (IsoDate.cmp self other)
    let years :=
      if largest_unit = .year then
        year_loop diff_fuel self other sign
          (if other.year - self.year ≠ 0 then other.year - self.year - sign
           else other.year - self.year)
          0
      else 0
    let months :=
      if largest_unit = .year ∨ largest_unit = .month then
        month_loop diff_fuel other self.day sign sign 0
          (balance_iso_year_month (self.year + years) (self.month + sign))
      else 0
    let inter := balance_iso_year_month (self.year + years) (self.month + months)
    match IsoDate.new inter.1 inter.2 self.day .constrain with
    | .error e => .error e
    | .ok constrained =>
      let days := iso_date_to_epoch_days other.year (other.month - 1) other.day
        - iso_date_to_epoch_days constrained.year (constrained.month - 1) constrained.day
      if largest_unit = .week then .ok ⟨years, months, trunc_div days 7, days % 7⟩
      else .ok ⟨years, months, 0, days⟩

-- ==== General lemmas about the epoch-day bijection ====

theorem day_from_year_succ (y : Int) :
    day_from_year (y + 1) = day_from_year y + (if iso_is_leap_year y then 366 else 365) := by
  unfold day_from_year iso_is_leap_year
  by_cases h4 : y % 4 = 0 <;> by_cases h100 : y % 100 = 0 <;> by_cases h400 : y % 400 = 0 <;>
    simp [h4, h100, h400] <;> omega

theorem day_from_year_mono : StrictMono day_from_year := by
  apply strictMono_int_of_lt_succ
  intro y
  rw [day_from_year_succ]
  split <;> omega

theorem day_from_year_window (d : Int) :
    day_from_year (1969 + 400 * d / 146097) ≤ d ∧
      d < day_from_year (1972 + 400 * d / 146097) := by
  unfold day_from_year
  constructor <;> omega

theorem epoch_year_from_days_eq (d y : Int) (h1 : day_from_year y ≤ d)
    (h2 : d < day_from_year (y + 1)) : epoch_year_from_days d = y := by
  have hw := day_from_year_window d
  have hy1 : 1969 + 400 * d / 146097 ≤ y := by
    by_contra hc
    push_neg at hc
    have := day_from_year_mono.monotone (show y + 1 ≤ 1969 + 400 * d / 146097 by omega)
    omega
  have hy2 : y ≤ 1971 + 400 * d / 146097 := by
    by_contra hc
    push_neg at hc
    have := day_from_year_mono.monotone (show 1972 + 400 * d / 146097 ≤ y by omega)
    omega
  unfold epoch_year_from_days
  have h3 : y = 1969 + 400 * d / 146097 ∨ y = 1970 + 400 * d / 146097 ∨
      y = 1971 + 400 * d / 146097 := by omega
  rcases h3 with h3 | h3 | h3
  · have hlt1 : ¬ day_from_year (1971 + 400 * d / 146097) ≤ d := by
      have := day_from_year_mono.monotone (show y + 1 ≤ 1971 + 400 * d / 146097 by omega)
      omega
    have hlt2 : ¬ day_from_year (1970 + 400 * d / 146097) ≤ d := by
      have := day_from_year_mono.monotone (show y + 1 ≤ 1970 + 400 * d / 146097 by omega)
      omega
    rw [if_neg hlt1, if_neg hlt2, h3]
  · have hlt1 : ¬ day_from_year (1971 + 400 * d / 146097) ≤ d := by
      have : (1971 : Int) + 400 * d / 146097 = y + 1 := by omega
      rw [this]; omega
    rw [if_neg hlt1, if_pos (h3 ▸ h1), h3]
  · rw [if_pos (h3 ▸ h1), h3]

theorem day_in_year_bounds (y m d : Int) (hm1 : 1 ≤ m) (hm2 : m ≤ 12) (hd1 : 1 ≤ d)
    (hd2 : d ≤ iso_days_in_month y m) :
    0 ≤ day_in_year_before_month y (m - 1) + d - 1 ∧
      day_in_year_before_month y (m - 1) + d - 1 < (if iso_is_leap_year y then 366 else 365) := by
  interval_cases m <;>
    cases hL : iso_is_leap_year y <;>
      simp [day_in_year_before_month, iso_days_in_month, hL] at hd2 ⊢ <;> omega

theorem month_from_day_in_year_eq (y m d : Int) (hm1 : 1 ≤ m) (hm2 : m ≤ 12) (hd1 : 1 ≤ d)
    (hd2 : d ≤ iso_days_in_month y m) :
    month_from_day_in_year y (day_in_year_before_month y (m - 1) + d - 1) = m - 1 := by
  interval_cases m <;>
    cases hL : iso_is_leap_year y <;>
      simp [month_from_day_in_year, day_in_year_before_month, iso_days_in_month, hL] at hd2 ⊢ <;>
        omega

theorem day_before_month_gap (y ma mb : Int) (h1 : 1 ≤ ma) (h2 : ma < mb) (h3 : mb ≤ 12) :
    day_in_year_before_month y (ma - 1) + iso_days_in_month y ma
      ≤ day_in_year_before_month y (mb - 1) := by
  have hmb1 : 2 ≤ mb := by omega
  have hma2 : ma ≤ 11 := by omega
  interval_cases ma <;> interval_cases mb <;>
    cases hL : iso_is_leap_year y <;>
      simp [day_in_year_before_month, iso_days_in_month, hL]

theorem ed_in_year_window (y m d : Int) (hm1 : 1 ≤ m) (hm2 : m ≤ 12) (hd1 : 1 ≤ d)
    (hd2 : d ≤ iso_days_in_month y m) :
    day_from_year y ≤ day_from_year y + day_in_year_before_month y (m - 1) + d - 1 ∧
      day_from_year y + day_in_year_before_month y (m - 1) + d - 1 < day_from_year (y + 1) := by
  have hb := day_in_year_bounds y m d hm1 hm2 hd1 hd2
  have hs := day_from_year_succ y
  cases hL : iso_is_leap_year y <;> simp [hL] at hb hs <;> omega

theorem to_epoch_days_valid_eq (y m d : Int) (hm1 : 1 ≤ m) (hm2 : m ≤ 12) :
    IsoDate.to_epoch_days ⟨y, m, d⟩
      = day_from_year y + day_in_year_before_month y (m - 1) + d - 1 := by
  show iso_date_to_epoch_days y (m - 1) d = _
  unfold iso_date_to_epoch_days trunc_div
  rw [if_pos (show (0 : Int) ≤ m - 1 by omega)]
  rw [show (m - 1) / 12 = 0 by omega, show (m - 1) % 12 = m - 1 by omega, add_zero]

theorem cmp_eq_of_eq_self (a b : IsoDate) (h : IsoDate.cmp a b = .eq) : a = b := by
  obtain ⟨ya, ma, da⟩ := a
  obtain ⟨yb, mb, db⟩ := b
  simp only [IsoDate.cmp] at h
  simp only [IsoDate.mk.injEq]
  split_ifs at h <;> simp_all <;> omega

theorem iso_cmp_swap (a b : IsoDate) : IsoDate.cmp b a = (IsoDate.cmp a b).swap := by
  obtain ⟨ya, ma, da⟩ := a
  obtain ⟨yb, mb, db⟩ := b
  simp only [IsoDate.cmp]
  split_ifs <;> simp_all [Ordering.swap] <;> omega

theorem to_epoch_days_lt_of_cmp_lt (a b : IsoDate)
    (hva : is_valid_date a.year a.month a.day = true)
    (hvb : is_valid_date b.year b.month b.day = true)
    (hlt : IsoDate.cmp a b = .lt) : a.to_epoch_days < b.to_epoch_days := by
  obtain ⟨ya, ma, da⟩ := a
  obtain ⟨yb, mb, db⟩ := b
  simp only [is_valid_date, decide_eq_true_eq] at hva hvb
  obtain ⟨hma1, hma2, hda1, hda2⟩ := hva
  obtain ⟨hmb1, hmb2, hdb1, hdb2⟩ := hvb
  rw [to_epoch_days_valid_eq ya ma da hma1 hma2, to_epoch_days_valid_eq yb mb db hmb1 hmb2]
  simp only [IsoDate.cmp] at hlt
  by_cases h1 : ya < yb
  · have hwa := ed_in_year_window ya ma da hma1 hma2 hda1 hda2
    have hwb := ed_in_year_window yb mb db hmb1 hmb2 hdb1 hdb2
    have hmono := day_from_year_mono.monotone (show ya + 1 ≤ yb by omega)
    omega
  · rw [if_neg h1] at hlt
    by_cases h2 : yb < ya
    · rw [if_pos h2] at hlt
      exact absurd hlt (by simp)
    · rw [if_neg h2] at hlt
      by_cases h3 : ma < mb
      · have hyy : ya = yb := by omega
        subst hyy
        have hgap := day_before_month_gap ya ma mb hma1 h3 hmb2
        omega
      · rw [if_neg h3] at hlt
        by_cases h4 : mb < ma
        · rw [if_pos h4] at hlt
          exact absurd hlt (by simp)
        · rw [if_neg h4] at hlt
          by_cases h5 : da < db
          · have hyy : ya = yb := by omega
            have hmm : ma = mb := by omega
            subst hyy
            subst hmm
            omega
          · rw [if_neg h5] at hlt
            by_cases h6 : db < da
            · rw [if_pos h6] at hlt
              exact absurd hlt (by simp)
            · rw [if_neg h6] at hlt
              exact absurd hlt (by simp)

/-- C9: for valid `IsoDate`s, the derived lexicographic comparison on
(year, month, day) — the comparison `diff_iso_date` consumes through `cmp` and
`iso_date_surpasses` — agrees with chronological order by epoch days: `a`
compares less than `b` iff `a.to_epoch_days() < b.to_epoch_days()`. -/
theorem c9_lex_cmp_agrees_with_epoch_days (a b : IsoDate)
    (hva : is_valid_date a.year a.month a.day = true)
    (hvb : is_valid_date b.year b.month b.day = true) :
    IsoDate.cmp a b = .lt ↔ a.to_epoch_days < b.to_epoch_days := by
  constructor
  · exact to_epoch_days_lt_of_cmp_lt a b hva hvb
  · intro hed
    rcases hcmp : IsoDate.cmp a b with _ | _ | _
    · rfl
    · have hab : a = b := cmp_eq_of_eq_self a b hcmp
      subst hab
      omega
    · have hba : IsoDate.cmp b a = .lt := by rw [iso_cmp_swap, hcmp]; rfl
      have := to_epoch_days_lt_of_cmp_lt b a hvb hva hba
      omega

/-- Witness for C9, instantiated at 2021-01-31 and 2021-02-01. -/
theorem c9_lex_cmp_agrees_with_epoch_days_witness :
    is_valid_date 2021 1 31 = true ∧ is_valid_date 2021 2 1 = true ∧
      (IsoDate.cmp ⟨2021, 1, 31⟩ ⟨2021, 2, 1⟩ = .lt ↔
        IsoDate.to_epoch_days ⟨2021, 1, 31⟩ < IsoDate.to_epoch_days ⟨2021, 2, 1⟩) :=
  ⟨by decide, by decide,
    c9_lex_cmp_agrees_with_epoch_days ⟨2021, 1, 31⟩ ⟨2021, 2, 1⟩ (by decide) (by decide)⟩

/-- C6: for every valid `IsoDate`, converting to the epoch-day count with
`to_epoch_days` and back through the epoch-days-to-date direction used by
`IsoDate::balance` yields the same date. -/
theorem c6_epoch_days_roundtrip (d : IsoDate)
    (hv : is_valid_date d.year d.month d.day = true) :
    epoch_days_to_date d.to_epoch_days = d := by
  obtain ⟨y, m, dd⟩ := d
  simp only [is_valid_date, decide_eq_true_eq] at hv
  obtain ⟨hm1, hm2, hd1, hd2⟩ := hv
  rw [to_epoch_days_valid_eq y m dd hm1 hm2]
  have hw := ed_in_year_window y m dd hm1 hm2 hd1 hd2
  have hyr : epoch_year_from_days
      (day_from_year y + day_in_year_before_month y (m - 1) + dd - 1) = y :=
    epoch_year_from_days_eq _ y hw.1 hw.2
  unfold epoch_days_to_date
  rw [hyr]
  have hdoy : day_from_year y + day_in_year_before_month y (m - 1) + dd - 1 - day_from_year y
      = day_in_year_before_month y (m - 1) + dd - 1 := by ring
  rw [hdoy]
  rw [month_from_day_in_year_eq y m dd hm1 hm2 hd1 hd2]
  simp only [IsoDate.mk.injEq]
  refine ⟨trivial, by omega, by omega⟩

/-- Witness for C6, instantiated at the leap day 2020-02-29. -/
theorem c6_epoch_days_roundtrip_witness :
    is_valid_date 2020 2 29 = true ∧
      epoch_days_to_date (IsoDate.to_epoch_days ⟨2020, 2, 29⟩) = ⟨2020, 2, 29⟩ :=
  ⟨by decide, c6_epoch_days_roundtrip ⟨2020, 2, 29⟩ (by decide)⟩

-- ==== Lemmas for the day-unit difference path ====

theorem balance_iso_year_month_id (y m : Int) (h1 : 1 ≤ m) (h2 : m ≤ 12) :
    balance_iso_year_month y m = (y, m) := by
  unfold balance_iso_year_month
  have e1 : (m - 1) / 12 = 0 := by omega
  have e2 : (m - 1) % 12 = m - 1 := by omega
  rw [e1, e2]
  have e3 : m - 1 + 1 = m := by omega
  rw [e3, add_zero]

theorem new_constrain_of_valid (y m d : Int)
    (hv : is_valid_date y m d = true)
    (hl : iso_dt_within_valid_limits ⟨y, m, d⟩ IsoTime.noon = true) :
    IsoDate.new y m d .constrain = .ok ⟨y, m, d⟩ := by
  simp only [is_valid_date, decide_eq_true_eq] at hv
  obtain ⟨hm1, hm2, hd1, hd2⟩ := hv
  unfold IsoDate.new
  have e1 : max 1 (min m 12) = m := by omega
  rw [e1]
  have e2 : max 1 (min d (iso_days_in_month y m)) = d := by omega
  rw [e2, if_pos hl]

theorem ord_to_int_eq_zero (a b : IsoDate) (h : ord_to_int (IsoDate.cmp a b) = 0) :
    IsoDate.cmp a b = .eq := by
  rcases hc : IsoDate.cmp a b with _ | _ | _ <;> rw [hc] at h <;>
    simp [ord_to_int] at h

theorem diff_iso_date_day_eq (a b : IsoDate)
    (hva : is_valid_date a.year a.month a.day = true)
    (hla : iso_dt_within_valid_limits a IsoTime.noon = true) :
    diff_iso_date a b .day = .ok ⟨0, 0, 0, b.to_epoch_days - a.to_epoch_days⟩ := by
  have hbm : 1 ≤ a.month ∧ a.month ≤ 12 := by
    simp only [is_valid_date, decide_eq_true_eq] at hva
    omega
  unfold diff_iso_date
  by_cases h0 : ord_to_int (IsoDate.cmp a b) = 0
  · rw [if_pos h0]
    have hab : a = b := cmp_eq_of_eq_self a b (ord_to_int_eq_zero a b h0)
    subst hab
    simp
  · rw [if_neg h0]
    simp only [reduceIte, reduceCtorEq, or_self, add_zero]
    rw [balance_iso_year_month_id a.year a.month hbm.1 hbm.2]
    have hnew : IsoDate.new a.year a.month a.day .constrain = .ok ⟨a.year, a.month, a.day⟩ :=
      new_constrain_of_valid a.year a.month a.day hva hla
    simp only [hnew]
    rfl

/-- C4 (amended): for valid `IsoDate`s that are within the ISO date-time
limits at noon, and `largest_unit = Day`, the component-wise negation of
`a.diff_iso_date(b, Day)` equals `b.diff_iso_date(a, Day)`. (As stated over
every `largest_unit` the claim is false: see the counterexample.) -/
theorem c4_diff_negation_day_unit (a b : IsoDate)
    (hva : is_valid_date a.year a.month a.day = true)
    (hvb : is_valid_date b.year b.month b.day = true)
    (hla : iso_dt_within_valid_limits a IsoTime.noon = true)
    (hlb : iso_dt_within_valid_limits b IsoTime.noon = true) :
    Except.map DateDuration.negated (diff_iso_date a b .day) = diff_iso_date b a .day := by
  rw [diff_iso_date_day_eq a b hva hla, diff_iso_date_day_eq b a hvb hlb]
  simp only [Except.map, DateDuration.negated, Except.ok.injEq, DateDuration.mk.injEq]
  refine ⟨by omega, by omega, by omega, by omega⟩

/-- Witness for the amended C4, instantiated at 2021-01-01 and 2021-01-09. -/
theorem c4_diff_negation_day_unit_witness :
    is_valid_date 2021 1 1 = true ∧ is_valid_date 2021 1 9 = true ∧
      iso_dt_within_valid_limits ⟨2021, 1, 1⟩ IsoTime.noon = true ∧
      iso_dt_within_valid_limits ⟨2021, 1, 9⟩ IsoTime.noon = true ∧
      Except.map DateDuration.negated (diff_iso_date ⟨2021, 1, 1⟩ ⟨2021, 1, 9⟩ .day)
        = diff_iso_date ⟨2021, 1, 9⟩ ⟨2021, 1, 1⟩ .day :=
  ⟨by decide, by decide, by decide, by decide,
    c4_diff_negation_day_unit ⟨2021, 1, 1⟩ ⟨2021, 1, 9⟩ (by decide) (by decide) (by decide)
      (by decide)⟩

/-- Counterexample for C4 as stated: for the Week, Month and Year largest
units the negation of `diff_iso_date(a, b, unit)` differs from
`diff_iso_date(b, a, unit)` on concrete valid dates. -/
theorem c4_counterexample :
    diff_iso_date ⟨2021, 1, 1⟩ ⟨2021, 1, 9⟩ .week = .ok ⟨0, 0, 1, 1⟩ ∧
    diff_iso_date ⟨2021, 1, 9⟩ ⟨2021, 1, 1⟩ .week = .ok ⟨0, 0, -1, 6⟩ ∧
    DateDuration.negated ⟨0, 0, 1, 1⟩ ≠ (⟨0, 0, -1, 6⟩ : DateDuration) ∧
    diff_iso_date ⟨2021, 2, 28⟩ ⟨2021, 3, 31⟩ .month = .ok ⟨0, 1, 0, 3⟩ ∧
    diff_iso_date ⟨2021, 3, 31⟩ ⟨2021, 2, 28⟩ .month = .ok ⟨0, -1, 0, 0⟩ ∧
    DateDuration.negated ⟨0, 1, 0, 3⟩ ≠ (⟨0, -1, 0, 0⟩ : DateDuration) ∧
    diff_iso_date ⟨2020, 2, 29⟩ ⟨2021, 2, 28⟩ .year = .ok ⟨0, 11, 0, 30⟩ ∧
    diff_iso_date ⟨2021, 2, 28⟩ ⟨2020, 2, 29⟩ .year = .ok ⟨0, -11, 0, -28⟩ ∧
    DateDuration.negated ⟨0, 11, 0, 30⟩ ≠ (⟨0, -11, 0, -28⟩ : DateDuration) :=
  ⟨rfl, rfl, by decide, rfl, rfl, by decide, rfl, rfl, by decide⟩

/-- C7: `IsoTime::balance` carries upward with Euclidean division/modulo at
every stage, so each retained field of the returned time is non-negative and
within its canonical range while the signed day carry absorbs the rest
(`NS_PER_DAY · days + fields = raw input total`); in particular
`balance(25,0,0,0,0,0) = (1, 01:00:00.000000000)`. Inputs are quantified over
the integers (on which the source's `f64` stages are exact up to 2^53). -/
theorem c7_time_balance_euclidean :
    (∀ h m s ms us ns : Int,
      0 ≤ (IsoTime.balance h m s ms us ns).2.hour ∧
        (IsoTime.balance h m s ms us ns).2.hour < 24 ∧
        0 ≤ (IsoTime.balance h m s ms us ns).2.minute ∧
        (IsoTime.balance h m s ms us ns).2.minute < 60 ∧
        0 ≤ (IsoTime.balance h m s ms us ns).2.second ∧
        (IsoTime.balance h m s ms us ns).2.second < 60 ∧
        0 ≤ (IsoTime.balance h m s ms us ns).2.millisecond ∧
        (IsoTime.balance h m s ms us ns).2.millisecond < 1000 ∧
        0 ≤ (IsoTime.balance h m s ms us ns).2.microsecond ∧
        (IsoTime.balance h m s ms us ns).2.microsecond < 1000 ∧
        0 ≤ (IsoTime.balance h m s ms us ns).2.nanosecond ∧
        (IsoTime.balance h m s ms us ns).2.nanosecond < 1000 ∧
        NS_PER_DAY * (IsoTime.balance h m s ms us ns).1
            + raw_total_nanos (IsoTime.balance h m s ms us ns).2.hour
              (IsoTime.balance h m s ms us ns).2.minute
              (IsoTime.balance h m s ms us ns).2.second
              (IsoTime.balance h m s ms us ns).2.millisecond
              (IsoTime.balance h m s ms us ns).2.microsecond
              (IsoTime.balance h m s ms us ns).2.nanosecond
          = raw_total_nanos h m s ms us ns) ∧
    IsoTime.balance 25 0 0 0 0 0 = (1, ⟨1, 0, 0, 0, 0, 0⟩) := by
  constructor
  · intro h m s ms us ns
    simp only [IsoTime.balance, div_mod, raw_total_nanos, NS_PER_DAY]
    omega
  · rfl

/-- C1: the source's `IsoTime::round` applied to 12:34:56.700 with increment
15, unit Minute and mode half-even returns 12:00:00.000000000 with zero day
carry — not the 12:30:00 required by the claim — because the Minute-branch
quantity adds `minute * 60` (instead of nanoseconds per minute), so the whole
minutes are lost to the rounding step. -/
theorem c1_round_minute_half_even_eval :
    IsoTime.round ⟨12, 34, 56, 700, 0, 0⟩ 15 .minute .halfEven none
      = .ok (0, ⟨12, 0, 0, 0, 0, 0⟩) := rfl

/-- C2: `iso_date_to_epoch_days` resolves the year with Rust's truncating
division, not the floor division of the claim: at (year 2000, month −1,
day 1) the source yields the day number of 2000-12-01 (11292), while the
spec's floor resolution yields 1999-12-01 (10926). -/
theorem c2_epoch_days_trunc_vs_floor :
    iso_date_to_epoch_days 2000 (-1) 1 = 11292 ∧
      date_to_epoch_days_spec 2000 (-1) 1 = 10926 ∧
      iso_date_to_epoch_days 2000 (-1) 1 ≠ date_to_epoch_days_spec 2000 (-1) 1 :=
  ⟨by decide, by decide, by decide⟩

/-- C3: with `largest_unit = Week` the source splits the remaining day count
with a truncating quotient and a Euclidean remainder: for the day count −8
(2021-01-09 to 2021-01-01) it returns weeks = −1, days = 6, and
7·(−1) + 6 = −1 ≠ −8, violating the claimed `7 × weeks + days` identity. -/
theorem c3_week_split_eval :
    diff_iso_date ⟨2021, 1, 9⟩ ⟨2021, 1, 1⟩ .week = .ok ⟨0, 0, -1, 6⟩ ∧
      iso_date_to_epoch_days 2021 0 1 - iso_date_to_epoch_days 2021 0 9 = -8 ∧
      7 * (-1) + 6 ≠ (-8 : Int) :=
  ⟨rfl, by decide, by decide⟩

/-- C5: the step construction of `IsoTime::round` is not a checked
construction: a caller-supplied day length of zero passes through the
`NonZeroU64::new_unchecked` wrapper unvalidated (yielding width 0 with no
error), and the subsequent `checked_mul` guards only overflow, so `0 × 15`
also succeeds. -/
theorem c5_unit_width_unchecked :
    unit_width .day (some 0) = .ok 0 ∧ checked_mul_u64 0 15 = .ok 0 :=
  ⟨rfl, rfl⟩

/-- Counterexample for C8 as stated: the date 275760-09-14, whose epoch-day
count is +100,000,001, is rejected by `IsoDate::new` (noon lies past the
maximum instant plus one day of slack), so "succeeds for a date whose
absolute epoch-day count equals 100,000,001" fails on the positive side. -/
theorem c8_counterexample :
    iso_date_to_epoch_days 275760 8 14 = 100000001 ∧
      IsoDate.new 275760 9 14 .reject
        = .error (.range "Date is not within ISO date time limits.") :=
  ⟨by decide, rfl⟩

/-- C8 (amended): `IsoDate::new` succeeds for the date with epoch-day count
−100,000,001 (−271821-04-19, noon stays above the minimum instant minus one
day), fails for the date with +100,000,001 (275760-09-14, noon exceeds the
maximum instant plus one day), and fails for both dates with absolute
epoch-day count 100,000,002 (caught by the 100,000,001-day pre-check). -/
theorem c8_amended_boundary :
    iso_date_to_epoch_days (-271821) 3 19 = -100000001 ∧
      IsoDate.new (-271821) 4 19 .reject = .ok ⟨-271821, 4, 19⟩ ∧
      iso_date_to_epoch_days 275760 8 14 = 100000001 ∧
      IsoDate.new 275760 9 14 .reject
        = .error (.range "Date is not within ISO date time limits.") ∧
      iso_date_to_epoch_days (-271821) 3 18 = -100000002 ∧
      IsoDate.new (-271821) 4 18 .reject
        = .error (.range "Date is not within ISO date time limits.") ∧
      iso_date_to_epoch_days 275760 8 15 = 100000002 ∧
      IsoDate.new 275760 9 15 .reject
        = .error (.range "Date is not within ISO date time limits.") :=
  ⟨by decide, rfl, by decide, rfl, by decide, rfl, by decide, rfl⟩

/-- C10: `diff_iso_date` of two valid `IsoDate`s is not total: at
275760-09-14 (a valid calendar date whose epoch-day count 100,000,001 passes
the pre-check) the Constrain regulation of the intermediate date re-runs the
noon instant-range check of `IsoDate::new` and fails, so the difference
returns a RangeError. -/
theorem c10_diff_range_error :
    is_valid_date 275760 9 14 = true ∧ is_valid_date 275760 9 13 = true ∧
      iso_date_to_epoch_days 275760 8 14 = 100000001 ∧
      diff_iso_date ⟨275760, 9, 14⟩ ⟨275760, 9, 13⟩ .day
        = .error (.range "Date is not within ISO date time limits.") :=
  ⟨by decide, by decide, by decide, rfl⟩
